import Mathlib

/-!
Verification development for the tide-predictor draft-derivation core
(source: src/NKT_Tide_Predictor_with_graph_v2.0.py).

The embedding models the core operations of the script:
* `parseLines` / `parse` — the `pd.read_csv(skiprows=2, header=None, names=...)`
  call (lines 26-31) followed by the `pd.to_datetime(..., format="%d-%b-%Y %H:%M:%S")`
  conversion (line 34).  `read_csv` on a data section with zero rows raises
  `EmptyDataError`, modelled as `Err.EmptyInputError`; a datetime that does not
  match the format makes `to_datetime` raise `ValueError`, modelled as
  `Err.FormatError`.  `read_csv` performs no numeric validation: a field that is
  not a number is carried through as a string (object dtype); this is modelled by
  `Cell`, and numeric inference is modelled per cell.
* `computeAt` — `df[df.timestamp == selected_timestamp].iloc[0]` (lines 74-75);
  the `IndexError` that `.iloc[0]` raises on an empty selection is modelled as
  `Err.NotFoundError`.
* `selectRange` — `df[(df.timestamp >= start) & (df.timestamp <= end)]` (line 118).
* `bounds` — `df.timestamp.min()` / `df.timestamp.max()` (lines 46-47); pandas
  `min`/`max` of an empty datetime column return the sentinel `NaT`, modelled as
  `Option.none`.
* `computeDrafts` — the draft arithmetic of the results loop (lines 100-108) and
  of the chart columns (lines 124-127); arithmetic on a non-numeric cell raises
  `TypeError` in pandas, modelled as `Option.none`.

Timestamps are embedded as naturals through a strictly monotone encoding of the
calendar fields, so the order on encoded instants is chronological order.
Real (float) values are embedded as rationals.
-/

deriving instance DecidableEq for Except

namespace TidePredictor

/-- The typed error vocabulary of the core. -/
inductive Err where
  | FormatError
  | EmptyInputError
  | NotFoundError
  | InvalidRangeError
deriving DecidableEq, Repr

/-- A parsed field value: pandas stores a numeric-looking field as a number and
any other field as a string, without error. -/
inductive Cell where
  | num (q : ℚ)
  | str (s : String)
deriving DecidableEq, Repr

/-- One row of the forecast, after parsing: the encoded timestamp and the five
value fields in the fixed column order of `column_names` (lines 16-23). -/
structure TideSample where
  timestamp : ℕ
  waterLevelAstro : Cell
  waterLevelMeteo : Cell
  surge : Cell
  depthAveragedVelocity : Cell
  currentDirection : Cell
deriving DecidableEq, Repr

/-- A named vertical datum point (the `points` dict, lines 66-70). -/
structure ReferencePoint where
  name : String
  elevation : ℚ
deriving DecidableEq, Repr

/-- The four draft scenario values for one (sample, point) pair. -/
structure DraftResult where
  astro : ℚ
  astroSurge : ℚ
  meteo : ℚ
  meteoSurge : ℚ
deriving DecidableEq, Repr

/-! ### Character-level helpers

The text-level work of `read_csv`/`to_datetime` is embedded by structurally
recursive functions over `List Char`, with `String` only at the boundary. -/

/-- Split a character list at every occurrence of `sep` (the single-character
separators of the source format: `,`, `.`, newline). -/
def splitOnChar (sep : Char) : List Char → List (List Char)
  | [] => [[]]
  | c :: cs =>
    match splitOnChar sep cs with
    | [] => [[]]
    | h :: t => if c = sep then [] :: h :: t else (c :: h) :: t

/-- Strip leading and trailing whitespace. -/
def trimChars (cs : List Char) : List Char :=
  ((cs.dropWhile Char.isWhitespace).reverse.dropWhile Char.isWhitespace).reverse

/-- Numeric value of a digit string (callers check `isDigit` first). -/
def digitsVal (cs : List Char) : ℕ :=
  cs.foldl (fun n c => n * 10 + (c.toNat - 48)) 0

/-! ### Datetime parsing (`%d-%b-%Y %H:%M:%S`)

`pd.to_datetime(..., format=...)` matches through the strptime `TimeRE`
regexes, anchored over the whole string: `%d` is `3[01]|[12]\d|0[1-9]|[1-9]| [1-9]`,
`%b` is the month-abbreviation alternation compiled case-insensitively,
`%Y` is exactly four digits, a blank in the format matches a nonempty
whitespace run, and `%H`/`%M`/`%S` each accept a bounded two-digit form or any
single digit; the matched fields must then form a valid calendar date-time or
construction raises.  The matchers below follow those regexes branch by
branch. -/

/-- The three-letter month abbreviations accepted by `%b`. -/
def monthNames : List String :=
  ["Jan", "Feb", "Mar", "Apr", "May", "Jun",
   "Jul", "Aug", "Sep", "Oct", "Nov", "Dec"]

/-- 1-based month number of a month abbreviation, compared case-insensitively
as the `%b` regex is. -/
def monthIndex? (cs : List Char) : Option ℕ :=
  ((monthNames.map (fun m => m.toList.map Char.toLower)).findIdx?
    (fun m => m = cs.map Char.toLower)).map (· + 1)

/-- Decimal value of a digit character. -/
def digitVal (c : Char) : ℕ := c.toNat - 48

/-- The `%d` day field: two digits valued 01-31, one digit 1-9, or a space
followed by a digit 1-9; returns the day and the remaining input. -/
def matchDay : List Char → Option (ℕ × List Char)
  | c1 :: c2 :: rest =>
    if c1.isDigit ∧ c2.isDigit then
      let v := digitVal c1 * 10 + digitVal c2
      if 1 ≤ v ∧ v ≤ 31 then some (v, rest) else none
    else if c1.isDigit ∧ c1 ≠ '0' then some (digitVal c1, c2 :: rest)
    else if c1 = ' ' ∧ c2.isDigit ∧ c2 ≠ '0' then some (digitVal c2, rest)
    else none
  | [c1] => if c1.isDigit ∧ c1 ≠ '0' then some (digitVal c1, []) else none
  | [] => none

/-- A literal character of the format. -/
def matchLit (c : Char) : List Char → Option (List Char)
  | x :: rest => if x = c then some rest else none
  | [] => none

/-- The `%b` month field: three letters forming a month abbreviation in any
case; returns the 1-based month and the remaining input. -/
def matchMonth : List Char → Option (ℕ × List Char)
  | c1 :: c2 :: c3 :: rest =>
    match monthIndex? [c1, c2, c3] with
    | some mo => some (mo, rest)
    | none => none
  | _ => none

/-- The `%Y` year field: exactly four digits. -/
def matchYear : List Char → Option (ℕ × List Char)
  | c1 :: c2 :: c3 :: c4 :: rest =>
    if c1.isDigit ∧ c2.isDigit ∧ c3.isDigit ∧ c4.isDigit then
      some (digitsVal [c1, c2, c3, c4], rest)
    else none
  | _ => none

/-- A blank in the format: one or more whitespace characters (`\s+`). -/
def matchWs : List Char → Option (List Char)
  | c :: rest =>
    if c.isWhitespace then some (rest.dropWhile Char.isWhitespace) else none
  | [] => none

/-- A `%H`/`%M`/`%S` field: two digits whose value is at most `hi`, or any
single digit; returns the value and the remaining input. -/
def matchNum2 (hi : ℕ) : List Char → Option (ℕ × List Char)
  | c1 :: c2 :: rest =>
    if c1.isDigit ∧ c2.isDigit then
      let v := digitVal c1 * 10 + digitVal c2
      if v ≤ hi then some (v, rest) else none
    else if c1.isDigit then some (digitVal c1, c2 :: rest)
    else none
  | [c1] => if c1.isDigit then some (digitVal c1, []) else none
  | [] => none

/-- Gregorian leap-year test. -/
def isLeap (y : ℕ) : Bool :=
  (y % 4 == 0 && y % 100 != 0) || y % 400 == 0

/-- Number of days of month `m` (1-based) in year `y`. -/
def daysInMonth (m y : ℕ) : ℕ :=
  if m = 2 then (if isLeap y then 29 else 28)
  else if m = 4 ∨ m = 6 ∨ m = 9 ∨ m = 11 then 30
  else 31

/-- Strictly monotone encoding of the calendar fields into a natural number;
for in-range fields it orders instants chronologically. -/
def encodeInstant (y mo d h mi s : ℕ) : ℕ :=
  ((((y * 12 + (mo - 1)) * 31 + (d - 1)) * 24 + h) * 60 + mi) * 60 + s

/-- Parse a datetime against `%d-%b-%Y %H:%M:%S` (line 34) as the strptime
regexes match it: day, literal dash, case-insensitive month abbreviation,
literal dash, four-digit year, a whitespace run, then 1-2-digit hour, minute
and second separated by colons, with nothing left over; the matched fields
must also form a valid calendar date-time (year at least 1, day within the
month), as construction of the resulting timestamp enforces.  `none` models
the `ValueError` raised by `pd.to_datetime` on any mismatch. -/
def parseDatetime? (cs : List Char) : Option ℕ := do
  let (d, r1) ← matchDay cs
  let r2 ← matchLit '-' r1
  let (mo, r3) ← matchMonth r2
  let r4 ← matchLit '-' r3
  let (y, r5) ← matchYear r4
  let r6 ← matchWs r5
  let (h, r7) ← matchNum2 23 r6
  let r8 ← matchLit ':' r7
  let (mi, r9) ← matchNum2 59 r8
  let r10 ← matchLit ':' r9
  let (sec, r11) ← matchNum2 59 r10
  if r11 = [] ∧ 1 ≤ y ∧ d ≤ daysInMonth mo y then
    pure (encodeInstant y mo d h mi sec)
  else none

/-! ### Numeric field inference -/

/-- Parse an unsigned decimal number (`123`, `2.00`, `.5`, `2.`). -/
def parseUnsigned? (cs : List Char) : Option ℚ :=
  match splitOnChar '.' cs with
  | [ip] =>
    if ip ≠ [] ∧ ip.all Char.isDigit then some (mkRat (digitsVal ip) 1) else none
  | [ip, fp] =>
    if ip.all Char.isDigit ∧ fp.all Char.isDigit ∧ ¬(ip = [] ∧ fp = []) then
      some (mkRat (digitsVal ip * 10 ^ fp.length + digitsVal fp) (10 ^ fp.length))
    else none
  | _ => none

/-- Parse an optionally signed decimal number, as pandas numeric inference
accepts for a CSV field. -/
def parseSigned? (cs : List Char) : Option ℚ :=
  match cs with
  | '-' :: rest => (parseUnsigned? rest).map Neg.neg
  | '+' :: rest => parseUnsigned? rest
  | _ => parseUnsigned? cs

/-- Infer one CSV field: a numeric-looking field (surrounding whitespace
tolerated) becomes a number, anything else stays a string.  `read_csv`
performs no numeric validation and never fails on such a field. -/
def parseCell (cs : List Char) : Cell :=
  match parseSigned? (trimChars cs) with
  | some q => Cell.num q
  | none => Cell.str (String.mk cs)

/-! ### Parsing (`read_csv` + `to_datetime`) -/

/-- Build one sample from the comma-split fields of a data line: exactly six
fields in the fixed order `datetime, water_level_astro, water_level_meteo,
surge, depth_averaged_velocity, current_direction`; the datetime must match
`%d-%b-%Y %H:%M:%S`. -/
def parseFields (fields : List (List Char)) : Except Err TideSample :=
  match fields with
  | [dt, a, m, sg, v, dir] =>
    match parseDatetime? dt with
    | some t =>
      Except.ok ⟨t, parseCell a, parseCell m, parseCell sg, parseCell v, parseCell dir⟩
    | none => Except.error Err.FormatError
  | _ => Except.error Err.FormatError

/-- Parse one data line. -/
def parseRow (line : String) : Except Err TideSample :=
  parseFields (splitOnChar ',' line.toList)

/-- Parse every data line in order, stopping at the first failing line. -/
def parseRows : List String → Except Err (List TideSample)
  | [] => Except.ok []
  | l :: ls =>
    match parseRow l, parseRows ls with
    | Except.ok r, Except.ok rs => Except.ok (r :: rs)
    | Except.error e, _ => Except.error e
    | _, Except.error e => Except.error e

/-- The parser, on the line-split input: skip the first two lines
unconditionally (`skiprows=2`), drop blank lines (`skip_blank_lines` default),
fail with `EmptyInputError` when no data line remains (pandas
`EmptyDataError`), otherwise parse every data line in order. -/
def parseLines (lines : List String) : Except Err (List TideSample) :=
  let dataLines := (lines.drop 2).filter (fun l => l ≠ "")
  if dataLines.isEmpty then Except.error Err.EmptyInputError
  else parseRows dataLines

/-- The parser on raw text. -/
def parse (raw : String) : Except Err (List TideSample) :=
  parseLines ((splitOnChar (Char.ofNat 10) raw.toList).map String.mk)

/-! ### Core operations -/

/-- Exact-timestamp lookup: `df[df.timestamp == t].iloc[0]` (lines 74-75).
The first row whose timestamp equals `t` is returned; the `IndexError` raised
by `.iloc[0]` when no row matches is the `NotFoundError` outcome. -/
def computeAt (series : List TideSample) (t : ℕ) : Except Err TideSample :=
  match (series.filter (fun r => r.timestamp == t)).head? with
  | some r => Except.ok r
  | none => Except.error Err.NotFoundError

/-- Range selection: the boolean-mask filter of line 118, inclusive on both
bounds, preserving row order.  The source performs no start/end validation. -/
def selectRange (series : List TideSample) (start stop : ℕ) : List TideSample :=
  series.filter (fun r => decide (start ≤ r.timestamp) && decide (r.timestamp ≤ stop))

/-- Modelled from the spec: the `selectRange` contract as the spec words it,
failing with `InvalidRangeError` when `start > end` (this check does not exist
in the source; the definition exists only to be compared with `selectRange`). -/
def selectRangeSpec (series : List TideSample) (start stop : ℕ) :
    Except Err (List TideSample) :=
  if stop < start then Except.error Err.InvalidRangeError
  else Except.ok (selectRange series start stop)

/-- Series bounds: `df.timestamp.min()` / `df.timestamp.max()` (lines 46-47);
on an empty series pandas returns the sentinel `NaT`, modelled as `none`. -/
def bounds (series : List TideSample) : Option ℕ × Option ℕ :=
  ((series.map (fun r => r.timestamp)).min?,
   (series.map (fun r => r.timestamp)).max?)

/-- Numeric view of a cell; `none` models the `TypeError` pandas raises when
arithmetic meets a non-numeric column. -/
def Cell.toRat? : Cell → Option ℚ
  | Cell.num q => some q
  | Cell.str _ => none

/-- Draft derivation for one (sample, point) pair: the four formulas of the
results loop (lines 100-108) and of the chart columns (lines 124-127),
before any presentation-side rounding. -/
def computeDrafts (sample : TideSample) (point : ReferencePoint) : Option DraftResult :=
  match sample.waterLevelAstro.toRat?, sample.waterLevelMeteo.toRat?, sample.surge.toRat? with
  | some astro, some meteo, some surge =>
    some ⟨astro - point.elevation, astro + surge - point.elevation,
          meteo - point.elevation, meteo + surge - point.elevation⟩
  | _, _, _ => none

/-! ### Concrete values used by witnesses -/

/-- A sample with a small timestamp, the water levels of the spec scenario. -/
def demoSample : TideSample :=
  ⟨5, Cell.num 2, Cell.num (21/10), Cell.num (1/10), Cell.num 1, Cell.num 90⟩

/-- A later sample. -/
def demoSampleLate : TideSample :=
  ⟨10, Cell.num 1, Cell.num (11/10), Cell.num (2/10), Cell.num 2, Cell.num 180⟩

/-- A sample sharing `demoSample`'s timestamp with different field values. -/
def demoSampleDup : TideSample :=
  ⟨5, Cell.num 3, Cell.num (31/10), Cell.num (3/10), Cell.num 3, Cell.num 45⟩

/-- The reference point of the spec scenario. -/
def demoPoint : ReferencePoint := ⟨"Barra de Arena (-1.40 m LAT)", -(14/10)⟩

/-- The sample parsed from the spec scenario row
`01-Jan-2024 00:00:00, 2.00, 2.10, 0.10, 1.0, 90`. -/
def demoParsedSample : TideSample :=
  ⟨encodeInstant 2024 1 1 0 0 0, Cell.num 2, Cell.num (21/10), Cell.num (1/10),
   Cell.num 1, Cell.num 90⟩

attribute [local semireducible] Rat.add Rat.sub Rat.mul Rat.inv

/-! ### Theorems -/

/-- Claim C1: for every sample and reference point, `computeDrafts` returns
exactly the four values `astro = waterLevelAstro - elevation`,
`astroSurge = waterLevelAstro + surge - elevation`,
`meteo = waterLevelMeteo - elevation`,
`meteoSurge = waterLevelMeteo + surge - elevation`; in particular, for the
sample (waterLevelAstro=2.00, waterLevelMeteo=2.10, surge=0.10) and elevation
-1.40 it yields astro=3.40, astroSurge=3.50, meteo=3.50, meteoSurge=3.60. -/
theorem computeDrafts_formulas :
    (∀ (s : TideSample) (p : ReferencePoint) (a m sg : ℚ),
      s.waterLevelAstro = Cell.num a → s.waterLevelMeteo = Cell.num m →
      s.surge = Cell.num sg →
      computeDrafts s p = some ⟨a - p.elevation, a + sg - p.elevation,
        m - p.elevation, m + sg - p.elevation⟩) ∧
    computeDrafts ⟨0, Cell.num 2, Cell.num (21/10), Cell.num (1/10),
        Cell.num 1, Cell.num 90⟩ ⟨"Barra de Arena", -(14/10)⟩ =
      some ⟨17/5, 7/2, 7/2, 18/5⟩ := by
  refine ⟨?_, by decide⟩
  intro s p a m sg ha hm hsg
  simp [computeDrafts, ha, hm, hsg, Cell.toRat?]

/-- Witness for C1: the general formula applied to the spec scenario. -/
theorem computeDrafts_formulas_witness :
    computeDrafts demoSample demoPoint =
      some ⟨2 - demoPoint.elevation, 2 + 1/10 - demoPoint.elevation,
        21/10 - demoPoint.elevation, 21/10 + 1/10 - demoPoint.elevation⟩ :=
  computeDrafts_formulas.1 demoSample demoPoint 2 (21/10) (1/10) rfl rfl rfl

/-- Claim C9: for every sample and point, the drafts of `computeDrafts` satisfy
`astroSurge - astro = surge` and `meteoSurge - meteo = surge`: the surge offset
is additively consistent across both baselines. -/
theorem computeDrafts_surge_consistent (s : TideSample) (p : ReferencePoint)
    (d : DraftResult) (sg : ℚ) (hsg : s.surge = Cell.num sg)
    (h : computeDrafts s p = some d) :
    d.astroSurge - d.astro = sg ∧ d.meteoSurge - d.meteo = sg := by
  rcases s with ⟨t, ca, cm, csg, cv, cd⟩
  cases ca with
  | str v => simp [computeDrafts, Cell.toRat?] at h
  | num qa =>
  cases cm with
  | str v => simp [computeDrafts, Cell.toRat?] at h
  | num qm =>
  cases csg with
  | str v => simp [computeDrafts, Cell.toRat?] at h
  | num qs =>
  simp only [computeDrafts, Cell.toRat?, Option.some.injEq] at h
  injection hsg with hq
  subst hq
  subst h
  constructor <;> ring

/-- Witness for C9: surge consistency at the spec scenario sample and point. -/
theorem computeDrafts_surge_consistent_witness :
    ((17:ℚ)/5 + 1/10) - 17/5 = (1:ℚ)/10 ∧ ((7:ℚ)/2 + 1/10) - 7/2 = (1:ℚ)/10 :=
  computeDrafts_surge_consistent demoSample demoPoint
    ⟨17/5, 17/5 + 1/10, 7/2, 7/2 + 1/10⟩ (1/10) rfl (by decide)

/-- Counterexample to claim C2: at the concrete series `[demoSample]` and the
range 3 > 1, the source `selectRange` (line 118) returns the empty series; it
does not fail — the spec-worded `selectRangeSpec`, which would return
`InvalidRangeError`, disagrees with the code there. -/
theorem selectRange_invalid_range_cex :
    (1:ℕ) < 3 ∧ selectRange [demoSample] 3 1 = [] ∧
    selectRangeSpec [demoSample] 3 1 = Except.error Err.InvalidRangeError := by
  decide

/-- Claim C2 as amended: for every series and every start > end, `selectRange`
returns the empty series (the source performs no start/end validation and has
no `InvalidRangeError` path). -/
theorem selectRange_start_gt_end_empty (series : List TideSample)
    (start stop : ℕ) (h : stop < start) :
    selectRange series start stop = [] := by
  apply List.filter_eq_nil_iff.mpr
  intro a ha
  simp only [Bool.and_eq_true, decide_eq_true_eq, not_and]
  intro h1 h2
  omega

/-- Witness for the amended C2. -/
theorem selectRange_start_gt_end_empty_witness :
    selectRange [demoSample] 9 2 = [] :=
  selectRange_start_gt_end_empty [demoSample] 9 2 (by decide)

/-- Counterexample to the `bounds` half of claim C4: on the empty series the
source computes `df.timestamp.min()` / `df.timestamp.max()`, and pandas
returns the degenerate sentinel `NaT` (modelled `none`) from both — a returned
value, not an `EmptyInputError`. -/
theorem bounds_empty_sentinel_cex :
    bounds ([] : List TideSample) = (none, none) := by
  decide

/-- Claim C4 as amended: `parse` fails with `EmptyInputError` when the data
section yields zero rows (and returns no degenerate result there), but
`bounds` on an empty series returns the degenerate sentinel pair (NaT, NaT)
rather than failing. -/
theorem parse_empty_input_error (lines : List String)
    (h : (lines.drop 2).filter (fun l => l ≠ "") = []) :
    parseLines lines = Except.error Err.EmptyInputError ∧
    bounds ([] : List TideSample) = (none, none) := by
  refine ⟨?_, rfl⟩
  simp only [parseLines]
  rw [h]
  rfl

/-- Witness for the amended C4: a file with only the two preamble lines. -/
theorem parse_empty_input_error_witness :
    parseLines ["header line one", "header line two"] =
      Except.error Err.EmptyInputError ∧
    bounds ([] : List TideSample) = (none, none) :=
  parse_empty_input_error ["header line one", "header line two"] (by decide)

/-- Claim C6: for start ≤ end, `selectRange` returns exactly the samples whose
timestamp lies in the closed interval [start, end], in the original order
(a sublist of the series); with start and end both below the series minimum it
yields the empty sequence, and with start and end spanning the full series
bounds it returns the entire series unchanged. -/
theorem selectRange_inclusive_ordered (series : List TideSample)
    (start stop : ℕ) (_hse : start ≤ stop) :
    List.Sublist (selectRange series start stop) series ∧
    (∀ r, r ∈ selectRange series start stop ↔
      r ∈ series ∧ start ≤ r.timestamp ∧ r.timestamp ≤ stop) ∧
    ((∀ r ∈ series, stop < r.timestamp) → selectRange series start stop = []) ∧
    ((∀ r ∈ series, start ≤ r.timestamp ∧ r.timestamp ≤ stop) →
      selectRange series start stop = series) := by
  refine ⟨List.filter_sublist _, ?_, ?_, ?_⟩
  · intro r
    simp [selectRange, List.mem_filter, and_assoc]
  · intro h
    apply List.filter_eq_nil_iff.mpr
    intro a ha
    have := h a ha
    simp only [Bool.and_eq_true, decide_eq_true_eq, not_and]
    intro h1 h2
    omega
  · intro h
    apply List.filter_eq_self.mpr
    intro a ha
    have := h a ha
    simp [this.1, this.2]

/-- Witness for C6: a full-bounds selection returns the whole series. -/
theorem selectRange_inclusive_ordered_witness :
    selectRange [demoSample, demoSampleLate] 0 100 = [demoSample, demoSampleLate] :=
  ((selectRange_inclusive_ordered [demoSample, demoSampleLate] 0 100
    (by decide)).2.2.2) (by decide)

/-- Claim C3: `computeAt` returns a sample whose timestamp equals `t` whenever
one exists in the series, and otherwise fails with the typed `NotFoundError`. -/
theorem computeAt_exact_match_or_notfound (series : List TideSample) (t : ℕ) :
    ((∃ r ∈ series, r.timestamp = t) →
      ∃ r, computeAt series t = Except.ok r ∧ r.timestamp = t) ∧
    ((∀ r ∈ series, r.timestamp ≠ t) →
      computeAt series t = Except.error Err.NotFoundError) := by
  constructor
  · rintro ⟨r, hr, ht⟩
    have hmem : r ∈ series.filter (fun x => x.timestamp == t) := by
      rw [List.mem_filter]
      exact ⟨hr, by simp [ht]⟩
    cases hfe : series.filter (fun x => x.timestamp == t) with
    | nil => rw [hfe] at hmem; cases hmem
    | cons r0 rs =>
      refine ⟨r0, by simp [computeAt, hfe], ?_⟩
      have hm0 : r0 ∈ series.filter (fun x => x.timestamp == t) := by
        rw [hfe]
        exact List.mem_cons_self r0 rs
      have := (List.mem_filter.mp hm0).2
      simpa using this
  · intro hnone
    have hfe : series.filter (fun x => x.timestamp == t) = [] := by
      apply List.filter_eq_nil_iff.mpr
      intro a ha
      simpa using hnone a ha
    simp [computeAt, hfe]

/-- Witness for C3: a timestamp absent from the series produces
`NotFoundError`. -/
theorem computeAt_exact_match_witness :
    computeAt [demoSample] 99 = Except.error Err.NotFoundError :=
  (computeAt_exact_match_or_notfound [demoSample] 99).2 (by decide)

/-- Claim C10: with duplicate timestamps in the series, `computeAt` returns
the first matching sample in file order (`iloc[0]`), not a later duplicate
and not an error. -/
theorem computeAt_first_of_duplicates (pre post : List TideSample)
    (r x : TideSample) (t : ℕ) (hr : r.timestamp = t)
    (hpre : ∀ y ∈ pre, y.timestamp ≠ t) (_hx : x ∈ post) (_hxt : x.timestamp = t) :
    computeAt (pre ++ r :: post) t = Except.ok r := by
  have hfilpre : pre.filter (fun y => y.timestamp == t) = [] := by
    apply List.filter_eq_nil_iff.mpr
    intro a ha
    simpa using hpre a ha
  have hfil : (pre ++ r :: post).filter (fun y => y.timestamp == t) =
      r :: post.filter (fun y => y.timestamp == t) := by
    rw [List.filter_append, hfilpre, List.filter_cons_of_pos (by simp [hr]),
      List.nil_append]
  simp [computeAt, hfil]

/-- Witness for C10: two samples share timestamp 5 with different fields; the
first is returned. -/
theorem computeAt_first_of_duplicates_witness :
    computeAt ([] ++ demoSample :: [demoSampleDup]) 5 = Except.ok demoSample :=
  computeAt_first_of_duplicates [] [demoSampleDup] demoSample demoSampleDup 5
    (by decide) (by decide) (by decide) (by decide)

/-- `parseRows` succeeds, in order, on lines that each parse to a row. -/
theorem parseRows_of_forall2 (ls : List String) (rows : List TideSample)
    (h : List.Forall₂ (fun l r => parseRow l = Except.ok r) ls rows) :
    parseRows ls = Except.ok rows := by
  induction ls generalizing rows with
  | nil =>
    cases h
    rfl
  | cons x xs ih =>
    cases h with
    | cons h1 h2 =>
      rw [parseRows, h1, ih _ h2]

/-- A line that parses to a row is nonempty. -/
theorem parseRow_ok_ne_empty (l : String) (r : TideSample)
    (h : parseRow l = Except.ok r) : l ≠ "" := by
  intro hemp
  subst hemp
  cases h

/-- Lines that each parse to a row are all nonempty. -/
theorem forall2_parseRow_ne_empty (ls : List String) (rows : List TideSample)
    (h : List.Forall₂ (fun l r => parseRow l = Except.ok r) ls rows) :
    ∀ l ∈ ls, l ≠ "" := by
  induction h with
  | nil =>
    intro l hl
    cases hl
  | cons h1 h2 ih =>
    intro l hl
    rcases List.mem_cons.mp hl with rfl | hmem
    · exact parseRow_ok_ne_empty _ _ h1
    · exact ih l hmem

/-- Claim C7: `parse` skips exactly the first two lines unconditionally,
produces one sample per subsequent data line preserving file order (one row
per line, same length), and reads the six fields of each line in the fixed
order datetime, waterLevelAstro, waterLevelMeteo, surge,
depthAveragedVelocity, currentDirection. -/
theorem parse_skips_preamble_maps_rows (p1 p2 : String) (ls : List String)
    (rows : List TideSample) (hne : ls ≠ [])
    (hrows : List.Forall₂ (fun l r => parseRow l = Except.ok r) ls rows) :
    parseLines (p1 :: p2 :: ls) = Except.ok rows ∧
    rows.length = ls.length ∧
    (∀ (line : String) (dt a m sg v dir : List Char) (t : ℕ),
      splitOnChar ',' line.toList = [dt, a, m, sg, v, dir] →
      parseDatetime? dt = some t →
      parseRow line = Except.ok ⟨t, parseCell a, parseCell m, parseCell sg,
        parseCell v, parseCell dir⟩) := by
  refine ⟨?_, hrows.length_eq.symm, ?_⟩
  · have hnb : ∀ l ∈ ls, l ≠ "" := forall2_parseRow_ne_empty ls rows hrows
    have hfilter : ls.filter (fun l => l ≠ "") = ls := by
      apply List.filter_eq_self.mpr
      intro a ha
      simpa using hnb a ha
    have hie : ls.isEmpty = false := by
      cases ls with
      | nil => exact absurd rfl hne
      | cons a as => rfl
    simp only [parseLines, List.drop_succ_cons, List.drop_zero]
    rw [hfilter, hie, if_neg Bool.false_ne_true]
    exact parseRows_of_forall2 ls rows hrows
  · intro line dt a m sg v dir t hsplit hdt
    unfold parseRow
    rw [hsplit]
    unfold parseFields
    simp [hdt]

/-- Witness for C7: the spec scenario row, preceded by two metadata lines,
parses to exactly its one sample. -/
theorem parse_skips_preamble_witness :
    parseLines ["meta one", "meta two",
      "01-Jan-2024 00:00:00, 2.00, 2.10, 0.10, 1.0, 90"] =
      Except.ok [demoParsedSample] :=
  (parse_skips_preamble_maps_rows ("meta one") ("meta two")
    ["01-Jan-2024 00:00:00, 2.00, 2.10, 0.10, 1.0, 90"] [demoParsedSample]
    (by decide) (List.Forall₂.cons (by decide) List.Forall₂.nil)).1

/-- With pairwise-distinct timestamps, the exact-match filter finds exactly
the given member. -/
theorem filter_timestamp_of_nodup (rows : List TideSample) (r : TideSample)
    (hr : r ∈ rows) (huniq : (rows.map (fun x => x.timestamp)).Nodup) :
    rows.filter (fun x => x.timestamp == r.timestamp) = [r] := by
  induction rows with
  | nil => cases hr
  | cons x xs ih =>
    rw [List.map_cons, List.nodup_cons] at huniq
    rcases List.mem_cons.mp hr with rfl | hmem
    · rw [List.filter_cons_of_pos (by simp)]
      have hnil : xs.filter (fun y => y.timestamp == r.timestamp) = [] := by
        apply List.filter_eq_nil_iff.mpr
        intro a ha hbeq
        have hts : a.timestamp = r.timestamp := by simpa using hbeq
        have hmap : a.timestamp ∈ xs.map (fun y => y.timestamp) :=
          List.mem_map_of_mem _ ha
        rw [hts] at hmap
        exact huniq.1 hmap
      rw [hnil]
    · have hxne : x.timestamp ≠ r.timestamp := by
        intro he
        apply huniq.1
        rw [he]
        exact List.mem_map_of_mem _ hmem
      rw [List.filter_cons_of_neg (by simp [hxne])]
      exact ih hmem huniq.2

/-- Claim C8: for a series produced by `parse` (with the spec's unique
timestamps), `computeAt` at any row's exact timestamp returns that row, all
fields equal to the parsed values (round-trip). -/
theorem parse_computeAt_roundtrip (lines : List String)
    (rows : List TideSample) (r : TideSample)
    (_hp : parseLines lines = Except.ok rows) (hr : r ∈ rows)
    (huniq : (rows.map (fun x => x.timestamp)).Nodup) :
    computeAt rows r.timestamp = Except.ok r := by
  have hfil := filter_timestamp_of_nodup rows r hr huniq
  simp [computeAt, hfil]

/-- Witness for C8: round-trip on the parsed spec scenario file. -/
theorem parse_computeAt_roundtrip_witness :
    computeAt [demoParsedSample] demoParsedSample.timestamp =
      Except.ok demoParsedSample :=
  parse_computeAt_roundtrip
    ["meta x", "meta y", "01-Jan-2024 00:00:00, 2.00, 2.10, 0.10, 1.0, 90"]
    [demoParsedSample] demoParsedSample (by decide) (by decide) (by decide)

end TidePredictor
